import Mathlib

/-
Verification of the info-broker dispatch core (capability registry, provider,
router, backend factory) and its concrete collaborators under
src/occo/infobroker (kvstore.py, uds.py, userinfo.py) and the routing unit
test (src/tests/unittests/routing.py).

Python dicts are modelled as association lists with dict-update semantics
(insertion order preserved, overwrite in place).  Failures are modelled with
an explicit error type: the Python KeyError family (the key-absence
condition the spec names KeyNotFound) is one constructor; TypeError,
StopIteration, IndexError and the factory's UnknownBackend are the others.
The registration core (ib.provider / ib.provides / ib.InfoProvider /
ib.InfoRouter) and occo.util.factory are not under src/; their definitions
below are modelled from the spec, as marked in their doc comments.
-/

namespace InfoBroker

abbrev Key := String

/-- Errors a query can signal: the key-absence condition (Python KeyError /
KeyNotFoundError, what the spec calls KeyNotFound), a TypeError from a
wrong-arity call, StopIteration from an exhausted generator, IndexError from
an out-of-range sequence access, and the factory's UnknownBackend. -/
inductive Err where
  | keyNotFound
  | typeError
  | stopIteration
  | indexError
  | unknownBackend
  deriving Repr, DecidableEq

/-- Lookup in an association list modelling a Python dict: the first (and,
for lists built by alistInsert, only) binding of the key. -/
def alistLookup [DecidableEq κ] : List (κ × V) → κ → Option V
  | [], _ => none
  | (k₀, v₀) :: rest, k => if k = k₀ then some v₀ else alistLookup rest k

/-- Update in an association list modelling a Python dict: overwrite the
existing binding in place, else append at the end (insertion order). -/
def alistInsert [DecidableEq κ] : List (κ × V) → κ → V → List (κ × V)
  | [], k, v => [(k, v)]
  | (k₀, v₀) :: rest, k, v =>
      if k₀ = k then (k₀, v) :: rest else (k₀, v₀) :: alistInsert rest k v

theorem alistLookup_alistInsert [DecidableEq κ] (es : List (κ × V)) (k j : κ) (v : V) :
    alistLookup (alistInsert es k v) j = if j = k then some v else alistLookup es j := by
  induction es with
  | nil =>
      by_cases h : j = k <;> simp [alistInsert, alistLookup, h]
  | cons hd tl ih =>
      obtain ⟨k₀, v₀⟩ := hd
      by_cases h1 : k₀ = k
      · subst h1
        by_cases h2 : j = k₀ <;> simp [alistInsert, alistLookup, h2]
      · by_cases h2 : j = k₀
        · subst h2
          have h3 : ¬ j = k := fun h => h1 (h ▸ rfl)
          simp [alistInsert, alistLookup, h1, h3]
        · simp [alistInsert, alistLookup, h1, h2, ih]

theorem alistLookup_isSome_eq_mem [DecidableEq κ] (es : List (κ × V)) (k : κ) :
    (alistLookup es k).isSome = decide (k ∈ es.map Prod.fst) := by
  induction es with
  | nil => simp [alistLookup]
  | cons hd tl ih =>
      obtain ⟨k₀, v₀⟩ := hd
      by_cases h : k = k₀ <;> simp [alistLookup, h, ih]

/-- First-match characterization of List.find?: if no element of the prefix
satisfies the predicate and x does, the search returns x. -/
theorem find?_first (p : α → Bool) (pre : List α) (x : α) (post : List α)
    (hpre : ∀ q ∈ pre, p q = false) (hx : p x = true) :
    (pre ++ x :: post).find? p = some x := by
  induction pre with
  | nil => simp [List.find?, hx]
  | cons a tl ih =>
      have ha : p a = false := hpre a (by simp)
      have : (a :: (tl ++ x :: post)).find? p = (tl ++ x :: post).find? p := by
        simp [List.find?, ha]
      simpa [this] using ih (fun q hq => hpre q (by simp [hq]))

/-- Modelled from the spec: CapabilityRegistry (the registration core
ib.provider / ib.provides is not under src/).  An insertion-ordered mapping
from capability key to handler; re-registering a key overwrites its handler
while keeping its position (last registration wins); keys iterates in
registration order; resolve is a pure lookup that represents absence rather
than signalling it. -/
structure CapabilityRegistry (α : Type) where
  entries : List (Key × α)

def CapabilityRegistry.empty : CapabilityRegistry α := ⟨[]⟩

def CapabilityRegistry.register (r : CapabilityRegistry α) (k : Key) (h : α) :
    CapabilityRegistry α :=
  ⟨alistInsert r.entries k h⟩

def CapabilityRegistry.resolve (r : CapabilityRegistry α) (k : Key) : Option α :=
  alistLookup r.entries k

def CapabilityRegistry.keys (r : CapabilityRegistry α) : List Key :=
  r.entries.map Prod.fst

/-- Shallow embedding of DictKVStore (src/occo/infobroker/kvstore.py):
a key-value store over a Python dict, here an association list. -/
structure DictKVStore (V : Type) where
  backend : List (Key × V)

/-- DictKVStore.query_item: self.backend[key]; an absent key raises the
key-absence error (Python KeyError). -/
def DictKVStore.query_item (s : DictKVStore V) (key : Key) : Except Err V :=
  match alistLookup s.backend key with
  | some v => .ok v
  | none => .error .keyNotFound

/-- DictKVStore.set_item: self.backend[key] = value. -/
def DictKVStore.set_item (s : DictKVStore V) (key : Key) (v : V) : DictKVStore V :=
  ⟨alistInsert s.backend key v⟩

/-- DictKVStore.has_key: key in self.backend. -/
def DictKVStore.has_key (s : DictKVStore V) (key : Key) : Bool :=
  (alistLookup s.backend key).isSome

/-- DictKVStore.__init__: start from an empty dict, then update with
init_dict when one is given. -/
def DictKVStore.init (init_dict : Option (List (Key × V))) : DictKVStore V :=
  match init_dict with
  | none => ⟨[]⟩
  | some d => ⟨d.foldl (fun es kv => alistInsert es kv.1 kv.2) []⟩

/-- The backend interface a Provider delegates to: has_key and query_item
(kvstore.py's KeyValueStore contract). -/
structure Backend (V : Type) where
  has_key : Key → Bool
  query_item : Key → Except Err V

def DictKVStore.toBackend (s : DictKVStore V) : Backend V :=
  ⟨s.has_key, s.query_item⟩

/-- Named arguments of a query call (Python kwargs), with string values. -/
abbrev Args := List (String × String)

/-- A handler: a callable bound to one capability key, taking named
arguments and returning a value or an error. -/
abbrev Handler (V : Type) := Args → Except Err V

/-- A Provider: a capability registry (modelled from the spec, since the
InfoProvider core is not under src/) plus an optional attached backend,
as in KeyValueStoreProvider (src/occo/infobroker/kvstore.py). -/
structure Provider (V : Type) where
  registry : CapabilityRegistry (Handler V)
  backend : Option (Backend V)

/-- InfoProvider._can_immediately_get: does the registry resolve the key. -/
def Provider.can_immediately_get (p : Provider V) (key : Key) : Bool :=
  (p.registry.resolve key).isSome

/-- InfoProvider._immediate_get: invoke the locally registered handler. -/
def Provider.immediate_get (p : Provider V) (key : Key) (args : Args) : Except Err V :=
  match p.registry.resolve key with
  | some h => h args
  | none => .error .keyNotFound

/-- KeyValueStoreProvider.get (src/occo/infobroker/kvstore.py lines 54-58):
local handler first, else the attached backend's query_item; with no
backend (plain InfoProvider, modelled from the spec) fail with the
key-absence error. -/
def Provider.get (p : Provider V) (key : Key) (args : Args) : Except Err V :=
  if p.can_immediately_get key then p.immediate_get key args
  else
    match p.backend with
    | some b => b.query_item key
    | none => .error .keyNotFound

/-- KeyValueStoreProvider.can_get (src/occo/infobroker/kvstore.py lines
59-60): locally resolvable or the backend has the key. -/
def Provider.can_get (p : Provider V) (key : Key) : Bool :=
  p.can_immediately_get key ||
    (match p.backend with
     | some b => b.has_key key
     | none => false)

/-- A Provider's declared keys: the registry's key sequence. -/
def Provider.keys (p : Provider V) : List Key :=
  p.registry.keys

/-- Modelled from the spec: InfoRouter (the router core is not under src/).
Holds an ordered sequence of sub-providers, preserved verbatim. -/
structure Router (V : Type) where
  sub_providers : List (Provider V)

/-- Modelled from the spec: Router.can_get is true iff any sub-provider's
can_get is true. -/
def Router.can_get (rt : Router V) (key : Key) : Bool :=
  rt.sub_providers.any (fun p => p.can_get key)

/-- Modelled from the spec: Router.get scans sub-providers in order and
forwards to the first one whose can_get is true; if none can answer it
fails with the key-absence error. -/
def Router.get (rt : Router V) (key : Key) (args : Args) : Except Err V :=
  match rt.sub_providers.find? (fun p => p.can_get key) with
  | some p => p.get key args
  | none => .error .keyNotFound

/-- Modelled from the spec: Router.keys is the literal concatenation, in
sub-provider order, of each sub-provider's keys, duplicates kept. -/
def Router.keys (rt : Router V) : List Key :=
  (rt.sub_providers.map Provider.keys).flatten

/-- TestProviderA.echo (src/tests/unittests/routing.py): returns
kwargs of msg; a missing msg argument raises KeyError. -/
def echoHandler : Handler String := fun args =>
  match alistLookup args "msg" with
  | some m => .ok m
  | none => .error .keyNotFound

/-- TestProviderB.anotherecho (src/tests/unittests/routing.py): returns
"HELLO " prepended to the msg argument. -/
def anotherechoHandler : Handler String := fun args =>
  match alistLookup args "msg" with
  | some m => .ok ("HELLO " ++ m)
  | none => .error .keyNotFound

/-- TestProviderA (src/tests/unittests/routing.py): declares
global.brokertime.utc, global.brokertime, global.echo in that order.  The
two clock readings are parameters of the instance (datetime is external). -/
def testProviderA (utcNow nowLocal : String) : Provider String where
  registry :=
    ((CapabilityRegistry.empty.register
        "global.brokertime.utc" (fun _ => .ok ("UTC " ++ utcNow))).register
        "global.brokertime" (fun _ => .ok ("BT " ++ nowLocal))).register
        "global.echo" echoHandler
  backend := none

/-- TestProviderB (src/tests/unittests/routing.py): declares global.hello
and global.echo in that order. -/
def testProviderB : Provider String where
  registry :=
    (CapabilityRegistry.empty.register
        "global.hello" (fun _ => .ok "Hello World!")).register
        "global.echo" anotherechoHandler
  backend := none

/-- PROVIDED_A (src/tests/unittests/routing.py line 8). -/
def PROVIDED_A : List Key :=
  ["global.brokertime.utc", "global.brokertime", "global.echo"]

/-- PROVIDED_B (src/tests/unittests/routing.py line 9). -/
def PROVIDED_B : List Key :=
  ["global.hello", "global.echo"]

/-- The router under test: TestRouter with sub-providers
TestProviderA, TestProviderB (src/tests/unittests/routing.py lines 56-58). -/
def testRouter (utcNow nowLocal : String) : Router String :=
  ⟨[testProviderA utcNow nowLocal, testProviderB]⟩

/-- For reasoning about side effects: a handler over an explicit mutable
state, the contents of the attached DictKVStore (handlers may have side
effects per the spec). -/
abbrev SHandler (V : Type) := Args → DictKVStore V → Except Err V × DictKVStore V

/-- A provider with stateful handlers and a DictKVStore backend whose
contents are the explicit state. -/
structure SProvider (V : Type) where
  registry : CapabilityRegistry (SHandler V)

/-- Stateful reading of KeyValueStoreProvider.get: a local handler may
mutate the store; the backend branch only reads it. -/
def SProvider.get (p : SProvider V) (key : Key) (args : Args)
    (st : DictKVStore V) : Except Err V × DictKVStore V :=
  match p.registry.resolve key with
  | some h => h args st
  | none => (st.query_item key, st)

/-- Stateful reading of KeyValueStoreProvider.can_get: composed only of the
registry lookup and the store's has_key, both reads, so the state passes
through untouched. -/
def SProvider.can_get (p : SProvider V) (key : Key)
    (st : DictKVStore V) : Bool × DictKVStore V :=
  ((p.registry.resolve key).isSome || st.has_key key, st)

/-- Thread the store through n successive can_get calls. -/
def canGetTimes (p : SProvider V) (key : Key) : Nat → DictKVStore V → DictKVStore V
  | 0, st => st
  | n + 1, st => canGetTimes p key n (p.can_get key st).2

/-- Modelled from the spec: the BackendFactory registration table of
occo.util.factory (not under src/), a process-wide mapping from
(abstract role, name) to an implementation; re-registration overwrites
silently (last write wins). -/
structure BackendFactory (β : Type) where
  table : List ((String × String) × β)

def BackendFactory.empty : BackendFactory β := ⟨[]⟩

/-- Modelled from the spec: factory.register for a (role, name) pair. -/
def BackendFactory.register (f : BackendFactory β) (role nm : String) (impl : β) :
    BackendFactory β :=
  ⟨alistInsert f.table (role, nm) impl⟩

/-- Modelled from the spec: instantiate looks up the implementation for
(role, name) and fails with UnknownBackend if absent. -/
def BackendFactory.instantiate (f : BackendFactory β) (role nm : String) :
    Except Err β :=
  match alistLookup f.table (role, nm) with
  | some impl => .ok impl
  | none => .error .unknownBackend

/-- The storage-role factory after the registration performed in
src/occo/infobroker/kvstore.py line 36: (KeyValueStore, dict) maps to the
DictKVStore constructor, which forwards the init_dict configuration. -/
def storageFactory : BackendFactory (Option (List (Key × Nat)) → DictKVStore Nat) :=
  BackendFactory.empty.register "storage" "dict" DictKVStore.init

/-- The userinfo_strategy field of a static description
(src/occo/infobroker/userinfo.py): absent or None, a string naming the
protocol, or a configuration dict. -/
inductive StratField where
  | unset
  | strName (s : String)
  | strConfig (d : List (String × String))
  deriving Repr, DecidableEq

/-- Python truthiness of the field: None, the empty string and the empty
dict are falsy. -/
def StratField.isFalsy : StratField → Bool
  | .unset => true
  | .strName s => s.isEmpty
  | .strConfig d => d.isEmpty

/-- The strategy implementations registered under the UserInfoStrategy
role: only BasicUserInfo, under the name basic
(src/occo/infobroker/userinfo.py lines 35-36). -/
inductive UserInfoImpl where
  | basicUserInfo
  deriving Repr, DecidableEq

def userinfoFactory : BackendFactory UserInfoImpl :=
  BackendFactory.empty.register "UserInfoStrategy" "basic" .basicUserInfo

/-- UserInfoStrategy.instantiate (src/occo/infobroker/userinfo.py lines
24-30): take userinfo_strategy or the literal basic when falsy; wrap a bare
string into a dict with it as the protocol entry; then delegate to the
factory (modelled from the spec: occo.util.factory selects the registered
implementation by the protocol name, and a missing protocol entry is a
bad-argument error of the underlying call). -/
def UserInfoStrategy.instantiate (field : StratField) : Except Err UserInfoImpl :=
  let spec := if field.isFalsy then StratField.strName "basic" else field
  let d : List (String × String) :=
    match spec with
    | .strName s => [("protocol", s)]
    | .strConfig c => c
    | .unset => []
  match alistLookup d "protocol" with
  | some nm => userinfoFactory.instantiate "UserInfoStrategy" nm
  | none => .error .typeError

/-- The Python call self.kvstore.query_item(key, default) against
DictKVStore: query_item is declared with a single key parameter
(src/occo/infobroker/kvstore.py lines 43-44), so passing a second
positional argument raises TypeError; without it the call is the ordinary
one-argument query_item. -/
def DictKVStore.query_item_call (s : DictKVStore V) (key : Key)
    (defaultArg : Option V) : Except Err V :=
  match defaultArg with
  | none => s.query_item key
  | some _ => .error .typeError

/-- UDS.infra_state_key (src/occo/infobroker/uds.py lines 63-70). -/
def infra_state_key (infra_id : String) : Key :=
  "infra:" ++ infra_id ++ ":state"

/-- UDS.get_infrastructure_state (src/occo/infobroker/uds.py lines
178-186): query the state key with an empty dict as default, over a
DictKVStore backend. -/
def get_infrastructure_state (kv : DictKVStore V) (infra_id : String)
    (emptyDict : V) : Except Err V :=
  kv.query_item_call (infra_state_key infra_id) (some emptyDict)

/-- A stored node definition: a record with a backend_id entry and the rest
of its payload (src/occo/infobroker/uds.py accesses only the backend_id
entry of each definition). -/
structure NodeDef (V : Type) where
  backend_id : String
  payload : V
  deriving Repr, DecidableEq

/-- UDS.node_def_key (src/occo/infobroker/uds.py lines 91-98). -/
def node_def_key (node_type : String) : Key :=
  "node_def:" ++ node_type

/-- The slice of the UDS state that node-definition queries use: the
key-value store holding lists of node definitions. -/
structure UDSStore (V : Type) where
  kvstore : DictKVStore (List (NodeDef V))

/-- UDS.all_nodedef (src/occo/infobroker/uds.py lines 100-109). -/
def UDSStore.all_nodedef (u : UDSStore V) (node_type : String) :
    Except Err (List (NodeDef V)) :=
  u.kvstore.query_item (node_def_key node_type)

/-- Python truthiness of the preselected_backend_id argument: None and the
empty string are falsy. -/
def isTruthy : Option String → Bool
  | none => false
  | some s => !s.isEmpty

/-- random.choice(seq): an element at a nondeterministically chosen index
(the index is the explicit choice oracle); an empty sequence raises
IndexError. -/
def randomChoice (l : List α) (choice : Nat) : Except Err α :=
  match l with
  | [] => .error .indexError
  | x :: rest => .ok ((x :: rest).get ⟨choice % (x :: rest).length, Nat.mod_lt _ (Nat.succ_pos rest.length)⟩)

/-- UDS.get_one_definition (src/occo/infobroker/uds.py lines 209-221):
fetch all definitions for the node type; when the preselected backend id is
truthy take the first definition whose backend_id equals it (next on an
exhausted generator raises StopIteration); otherwise pick one at random. -/
def UDSStore.get_one_definition (u : UDSStore V) (node_type : String)
    (preselected_backend_id : Option String) (choice : Nat) :
    Except Err (NodeDef V) :=
  match u.all_nodedef node_type with
  | .error e => .error e
  | .ok all_definitions =>
    if isTruthy preselected_backend_id then
      match all_definitions.find?
          (fun i => i.backend_id = preselected_backend_id.getD "") with
      | some d => .ok d
      | none => .error .stopIteration
    else
      randomChoice all_definitions choice

theorem canGetTimes_eq (p : SProvider V) (k : Key) (n : Nat) (st : DictKVStore V) :
    canGetTimes p k n st = st := by
  induction n with
  | zero => rfl
  | succ m ih => simpa [canGetTimes, SProvider.can_get] using ih

/-- C1: for every Router, the first sub-provider in construction order that
can answer a key receives the query, regardless of later sub-providers and
of argument values; in particular the TestRouter over TestProviderA and
TestProviderB answers global.echo with A's echo (the message itself), never
B's "HELLO"-prefixed answer. -/
theorem router_first_match_wins :
    (∀ (V : Type) (pre : List (Provider V)) (p : Provider V) (post : List (Provider V))
        (k : Key) (args : Args),
        (∀ q ∈ pre, q.can_get k = false) → p.can_get k = true →
        Router.get ⟨pre ++ p :: post⟩ k args = p.get k args) ∧
    (∀ utcNow nowLocal m : String,
        (testRouter utcNow nowLocal).get "global.echo" [("msg", m)] = .ok m) := by
  constructor
  · intro V pre p post k args hpre hp
    unfold Router.get
    rw [find?_first (fun q => q.can_get k) pre p post hpre hp]
  · intro u n m
    rfl

theorem router_first_match_wins_witness :
    Router.get (⟨[] ++ testProviderB :: []⟩ : Router String) "global.hello" [] =
      testProviderB.get "global.hello" [] ∧
    (testRouter "U" "L").get "global.echo" [("msg", "TTT")] = .ok "TTT" :=
  ⟨router_first_match_wins.1 String [] testProviderB [] "global.hello" []
      (by intro q hq; simp at hq) rfl,
   router_first_match_wins.2 "U" "L" "TTT"⟩

/-- C2: a Router's keys are the literal concatenation of the sub-providers'
key sequences in sub-provider order, duplicates kept; for the TestRouter the
result is PROVIDED_A ++ PROVIDED_B, of length 5 with global.echo twice. -/
theorem router_keys_concatenation :
    (∀ (V : Type) (subs : List (Provider V)),
        Router.keys ⟨subs⟩ = (subs.map Provider.keys).flatten) ∧
    (∀ utcNow nowLocal : String,
        (testRouter utcNow nowLocal).keys = PROVIDED_A ++ PROVIDED_B ∧
        (testRouter utcNow nowLocal).keys.length = 5 ∧
        (testRouter utcNow nowLocal).keys.count "global.echo" = 2) :=
  ⟨fun _ _ => rfl, fun _ _ => ⟨rfl, rfl, rfl⟩⟩

/-- C3: a Provider with an attached backend resolves in two tiers with the
local handler taking precedence: when the registry resolves the key the
handler's answer is returned for every backend (so the backend is never
consulted, even when it also has the key); only when no local handler
resolves the key is the backend's query_item invoked. -/
theorem provider_two_tier_precedence :
    ∀ (V : Type) (r : CapabilityRegistry (Handler V)) (b : Backend V)
      (k : Key) (args : Args),
      (∀ h : Handler V, r.resolve k = some h →
        Provider.get ⟨r, some b⟩ k args = h args) ∧
      (r.resolve k = none →
        Provider.get ⟨r, some b⟩ k args = b.query_item k) := by
  intro V r b k args
  constructor
  · intro h hh
    simp [Provider.get, Provider.can_immediately_get, Provider.immediate_get, hh]
  · intro hn
    simp [Provider.get, Provider.can_immediately_get, Provider.immediate_get, hn]

def witnessRegistry : CapabilityRegistry (Handler String) :=
  CapabilityRegistry.empty.register "k" (fun _ => .ok "local")

def witnessBackend : Backend String :=
  (DictKVStore.mk [("k", "stored")]).toBackend

theorem provider_two_tier_precedence_witness :
    Provider.get ⟨witnessRegistry, some witnessBackend⟩ "k" [] = .ok "local" ∧
    Provider.get ⟨CapabilityRegistry.empty, some witnessBackend⟩ "k" [] =
      witnessBackend.query_item "k" :=
  ⟨(provider_two_tier_precedence String witnessRegistry witnessBackend "k" []).1
      (fun _ => .ok "local") rfl,
   (provider_two_tier_precedence String CapabilityRegistry.empty witnessBackend "k" []).2 rfl⟩

/-- C4: a Provider fails with the key-absence error on any undeclared key:
with no backend attached, and with a DictKVStore backend that does not have
the key. -/
theorem undeclared_key_not_found :
    ∀ (V : Type) (r : CapabilityRegistry (Handler V)) (s : DictKVStore V)
      (k : Key) (args : Args),
      r.resolve k = none →
      Provider.get ⟨r, none⟩ k args = .error .keyNotFound ∧
      (s.has_key k = false →
        Provider.get ⟨r, some s.toBackend⟩ k args = .error .keyNotFound) := by
  intro V r s k args hn
  constructor
  · simp [Provider.get, Provider.can_immediately_get, hn]
  · intro hk
    have hlook : alistLookup s.backend k = none := by
      cases hl : alistLookup s.backend k with
      | none => rfl
      | some v => rw [DictKVStore.has_key, hl] at hk; simp at hk
    simp [Provider.get, Provider.can_immediately_get, hn, DictKVStore.toBackend,
      DictKVStore.query_item, hlook]

theorem undeclared_key_not_found_witness :
    Provider.get (⟨CapabilityRegistry.empty, none⟩ : Provider String) "nope" [] =
      .error .keyNotFound ∧
    Provider.get
        ⟨CapabilityRegistry.empty, some (DictKVStore.mk ([] : List (Key × String))).toBackend⟩
        "nope" [] = .error .keyNotFound :=
  ⟨(undeclared_key_not_found String CapabilityRegistry.empty ⟨[]⟩ "nope" [] rfl).1,
   (undeclared_key_not_found String CapabilityRegistry.empty ⟨[]⟩ "nope" [] rfl).2 rfl⟩

/-- C5: can_get is true iff the registry resolves the key locally or the
backend has the key; it is read-only (the store passes through unchanged,
so any number of can_get calls leaves subsequent get results unchanged) and
it never invokes a handler (its answer depends only on the registered key
sequence, not on handler bodies). -/
theorem can_get_characterization :
    ∀ (V : Type) (r : CapabilityRegistry (Handler V)) (b : Backend V) (k : Key)
      (p : SProvider V) (st : DictKVStore V),
      (Provider.can_get ⟨r, some b⟩ k = true ↔
        (∃ h : Handler V, r.resolve k = some h) ∨ b.has_key k = true) ∧
      ((SProvider.can_get p k st).2 = st) ∧
      (∀ (n : Nat) (ks kq : Key) (args : Args),
        SProvider.get p kq args (canGetTimes p ks n st) = SProvider.get p kq args st) ∧
      (∀ q : SProvider V, q.registry.keys = p.registry.keys →
        (SProvider.can_get q k st).1 = (SProvider.can_get p k st).1) := by
  intro V r b k p st
  refine ⟨?_, rfl, ?_, ?_⟩
  · simp [Provider.can_get, Provider.can_immediately_get, Bool.or_eq_true,
      Option.isSome_iff_exists]
  · intro n ks kq args
    rw [canGetTimes_eq]
  · intro q hkeys
    have hmem : q.registry.entries.map Prod.fst = p.registry.entries.map Prod.fst := hkeys
    simp only [SProvider.can_get, CapabilityRegistry.resolve,
      alistLookup_isSome_eq_mem, hmem]

def witnessSProviderP : SProvider String :=
  ⟨CapabilityRegistry.empty.register "s" (fun _ st => (.ok "A", st))⟩

def witnessSProviderQ : SProvider String :=
  ⟨CapabilityRegistry.empty.register "s" (fun _ st => (.ok "B", st.set_item "x" "y"))⟩

theorem can_get_characterization_witness :
    Provider.can_get ⟨witnessRegistry, some witnessBackend⟩ "k" = true ∧
    (SProvider.can_get witnessSProviderQ "s" ⟨[]⟩).1 =
      (SProvider.can_get witnessSProviderP "s" ⟨[]⟩).1 :=
  ⟨(can_get_characterization String witnessRegistry witnessBackend "k"
      witnessSProviderP ⟨[]⟩).1.mpr (Or.inl ⟨fun _ => .ok "local", rfl⟩),
   (can_get_characterization String witnessRegistry witnessBackend "s"
      witnessSProviderP ⟨[]⟩).2.2.2 witnessSProviderQ rfl⟩

/-- C6 evaluation: as written, UDS.get_infrastructure_state always raises
TypeError over a DictKVStore backend, because DictKVStore.query_item is
declared with a single key parameter while the call passes a default as a
second positional argument. -/
theorem uds_default_query_type_error :
    ∀ (V : Type) (kv : DictKVStore V) (infra_id : String) (emptyDict : V),
      get_infrastructure_state kv infra_id emptyDict = .error .typeError := by
  intro V kv i d
  rfl

/-- C7: after the dict registration under the storage role, instantiating
(storage, dict) yields the DictKVStore constructor: applied to the initial
mapping a maps-to 1 it gives a store where has_key a is true and
query_item a returns 1; instantiating an unregistered pair fails with
UnknownBackend. -/
theorem storage_factory_dict_roundtrip :
    (∃ ctor, storageFactory.instantiate "storage" "dict" = .ok ctor ∧
      (ctor (some [("a", 1)])).has_key "a" = true ∧
      (ctor (some [("a", 1)])).query_item "a" = .ok 1) ∧
    storageFactory.instantiate "storage" "redis" = .error .unknownBackend :=
  ⟨⟨DictKVStore.init, rfl, rfl, rfl⟩, rfl⟩

/-- C8: UserInfoStrategy.instantiate selects the implementation registered
under the name basic when the userinfo_strategy field is unset, and more
generally whenever the field is falsy. -/
theorem userinfo_default_basic :
    UserInfoStrategy.instantiate .unset = .ok .basicUserInfo ∧
    ∀ f : StratField, f.isFalsy = true →
      UserInfoStrategy.instantiate f = .ok .basicUserInfo := by
  constructor
  · rfl
  · intro f hf
    simp only [UserInfoStrategy.instantiate, hf, if_true]
    rfl

theorem userinfo_default_basic_witness :
    UserInfoStrategy.instantiate (.strName "") = .ok .basicUserInfo :=
  userinfo_default_basic.2 (.strName "") rfl

/-- C9: immediately after set_item on a DictKVStore, has_key of the key is
true and query_item returns the stored value, while every other key's
has_key and query_item results are unchanged. -/
theorem dictkvstore_set_item_spec :
    ∀ (V : Type) (s : DictKVStore V) (k : Key) (v : V),
      (s.set_item k v).has_key k = true ∧
      (s.set_item k v).query_item k = .ok v ∧
      ∀ k2 : Key, k2 ≠ k →
        (s.set_item k v).has_key k2 = s.has_key k2 ∧
        (s.set_item k v).query_item k2 = s.query_item k2 := by
  intro V s k v
  refine ⟨?_, ?_, ?_⟩
  · simp [DictKVStore.has_key, DictKVStore.set_item, alistLookup_alistInsert]
  · simp [DictKVStore.query_item, DictKVStore.set_item, alistLookup_alistInsert]
  · intro k2 hk
    constructor
    · simp [DictKVStore.has_key, DictKVStore.set_item, alistLookup_alistInsert, hk]
    · simp [DictKVStore.query_item, DictKVStore.set_item, alistLookup_alistInsert, hk]

theorem dictkvstore_set_item_spec_witness :
    ((DictKVStore.mk ([("b", "old")] : List (Key × String))).set_item "a" "1").has_key "b" =
      (DictKVStore.mk ([("b", "old")] : List (Key × String))).has_key "b" ∧
    ((DictKVStore.mk ([("b", "old")] : List (Key × String))).set_item "a" "1").query_item "b" =
      (DictKVStore.mk ([("b", "old")] : List (Key × String))).query_item "b" :=
  (dictkvstore_set_item_spec String ⟨[("b", "old")]⟩ "a" "1").2.2 "b" (by decide)

/-- C10: with a truthy preselected backend id, get_one_definition returns
the first definition from all_nodedef whose backend_id equals it and raises
StopIteration (not the key-absence error) when no definition matches; with
a falsy preselected id it returns some nondeterministically chosen element
of the definition list. -/
theorem get_one_definition_spec :
    ∀ (V : Type) (u : UDSStore V) (nt bid : String) (choice : Nat)
      (defs : List (NodeDef V)),
      u.all_nodedef nt = .ok defs →
      bid ≠ "" →
      ((∀ (pre : List (NodeDef V)) (d : NodeDef V) (post : List (NodeDef V)),
          defs = pre ++ d :: post →
          (∀ e ∈ pre, e.backend_id ≠ bid) → d.backend_id = bid →
          u.get_one_definition nt (some bid) choice = .ok d) ∧
       ((∀ e ∈ defs, e.backend_id ≠ bid) →
          u.get_one_definition nt (some bid) choice = .error .stopIteration) ∧
       (∀ pre2 : Option String, isTruthy pre2 = false → defs ≠ [] →
          ∃ d, d ∈ defs ∧ u.get_one_definition nt pre2 choice = .ok d)) := by
  intro V u nt bid choice defs hdefs hbid
  have hempty : bid.isEmpty = false := by
    cases h : bid.isEmpty
    · rfl
    · exact absurd ((String.isEmpty_iff bid).mp h) hbid
  have htruthy : isTruthy (some bid) = true := by
    simp [isTruthy, hempty]
  refine ⟨?_, ?_, ?_⟩
  · intro pre d post hsplit hpre hd
    have hfind : (pre ++ d :: post).find?
        (fun i => decide (i.backend_id = bid)) = some d := by
      apply find?_first
      · intro q hq
        simpa using hpre q hq
      · simpa using hd
    simp only [UDSStore.get_one_definition, hdefs, htruthy, if_true,
      Option.getD_some, hsplit]
    rw [hfind]
  · intro hnone
    have hfind : defs.find?
        (fun i => decide (i.backend_id = bid)) = none := by
      apply List.find?_eq_none.mpr
      intro x hx
      simpa using hnone x hx
    simp only [UDSStore.get_one_definition, hdefs, htruthy, if_true,
      Option.getD_some]
    rw [hfind]
  · intro pre2 hfalsy hne
    match defs, hne with
    | x :: rest, _ =>
      refine ⟨(x :: rest).get ⟨choice % (x :: rest).length,
        Nat.mod_lt _ (Nat.succ_pos rest.length)⟩, List.get_mem _ _ _, ?_⟩
      simp [UDSStore.get_one_definition, hdefs, hfalsy, randomChoice]

def witnessUDS : UDSStore Nat :=
  ⟨⟨[("node_def:t", [⟨"b1", 0⟩, ⟨"b2", 1⟩])]⟩⟩

theorem get_one_definition_spec_witness :
    witnessUDS.get_one_definition "t" (some "b2") 0 = .ok ⟨"b2", 1⟩ ∧
    witnessUDS.get_one_definition "t" (some "b3") 0 = .error .stopIteration ∧
    ∃ d, d ∈ ([⟨"b1", 0⟩, ⟨"b2", 1⟩] : List (NodeDef Nat)) ∧
      witnessUDS.get_one_definition "t" none 0 = .ok d :=
  ⟨(get_one_definition_spec Nat witnessUDS "t" "b2" 0 _ rfl (by decide)).1
      [⟨"b1", 0⟩] ⟨"b2", 1⟩ [] rfl (by decide) rfl,
   (get_one_definition_spec Nat witnessUDS "t" "b3" 0 _ rfl (by decide)).2.1 (by decide),
   (get_one_definition_spec Nat witnessUDS "t" "b2" 0 _ rfl (by decide)).2.2 none rfl
      (by decide)⟩

end InfoBroker
